import Mathlib

/-!
Shallow embedding of `django_exportable_admin/admin.py` (the `ExportableAdmin`
mixin) and proofs about its documented behaviour.

The mixin's methods are pure glue over the host framework, so each is embedded
as a pure function: the request is a record carrying the `is_export_request`
flag, the changelist view returns the headers and template it sets together
with the request state it passes to the host view, and the xls exporter
returns the sheet it would write.  Host-framework pieces that the code calls
(`reverse`, `slugify`) are a function parameter and an explicit model
respectively.
-/

namespace DjangoExportableAdmin

/-- Lowercasing of a string, modelling Python's `str.lower`. -/
def lowerStr (s : String) : String := String.mk (s.data.map Char.toLower)

/-- Uppercasing of a string, modelling Python's `str.upper`. -/
def upperStr (s : String) : String := String.mk (s.data.map Char.toUpper)

/-- Drop leading and trailing spaces, modelling Python's `str.strip`. -/
def stripSpaces (l : List Char) : List Char :=
  ((l.dropWhile (fun c => c == ' ')).reverse.dropWhile (fun c => c == ' ')).reverse

/-- Collapse each run of spaces and hyphens into a single hyphen. -/
def squashSeps : Bool → List Char → List Char
  | _, [] => []
  | sepPending, c :: cs =>
    if c == ' ' || c == '-' then
      if sepPending then squashSeps true cs
      else '-' :: squashSeps true cs
    else c :: squashSeps false cs

/-- Model of the host framework's `slugify` template filter: keep word
characters, spaces and hyphens, lowercase, strip, and collapse runs of spaces
and hyphens into single hyphens. -/
def slugify (s : String) : String :=
  let kept := (s.toList.filter
    (fun c => c.isAlphanum || c == ' ' || c == '-' || c == '_')).map Char.toLower
  String.mk (squashSeps false (stripSpaces kept))

/-- One field of the model's `_meta.fields`; `verbose_name` empty models a
falsy verbose name, which the code replaces by the field name. -/
structure MetaField where
  name : String
  verbose_name : String
deriving DecidableEq, Repr

/-- The slice of Django's `model._meta` that the mixin reads. -/
structure ModelMeta where
  app_label : String
  module_name : String
  verbose_name : String
  verbose_name_plural : String
  fields : List MetaField
deriving DecidableEq, Repr

/-- The configuration surface of `ExportableAdmin`: the class attributes the
mixin's methods read.  The defaults are the class-level defaults
(`export_queryset_limit = 10000`, empty formats and types). -/
structure AdminConfig where
  meta : ModelMeta
  export_queryset_limit : Nat := 10000
  export_formats : List (String × String) := []
  export_types : List String := []
  list_display : List String := []
deriving DecidableEq, Repr

/-- A request; `is_export_request = true` models the attribute being present
(`hasattr(request, 'is_export_request')`), which the code only ever sets to
`True`. -/
structure Request where
  is_export_request : Bool := false
deriving DecidableEq, Repr

/-- The arguments of one `self.paginator(...)` construction. -/
structure PaginatorCall (Q : Type) where
  queryset : Q
  per_page : Nat
  orphans : Nat
  allow_empty_first_page : Bool
deriving DecidableEq, Repr

/-- `ExportableAdmin.get_paginator`: for an export request, build the
paginator with `export_queryset_limit`, zero orphans and
`allow_empty_first_page = True`; otherwise pass the arguments through. -/
def get_paginator {Q : Type} (cfg : AdminConfig) (request : Request)
    (queryset : Q) (per_page : Nat) (orphans : Nat)
    (allow_empty_first_page : Bool) : PaginatorCall Q :=
  if request.is_export_request then
    { queryset := queryset, per_page := cfg.export_queryset_limit,
      orphans := 0, allow_empty_first_page := true }
  else
    { queryset := queryset, per_page := per_page, orphans := orphans,
      allow_empty_first_page := allow_empty_first_page }

/-- The route-name format string `"%s_%s_export_%s" % (app, mod, name)`. -/
def export_url_name (app mod name : String) : String :=
  app ++ "_" ++ mod ++ "_export_" ++ name

/-- `ExportableAdmin.get_export_buttons`: one `(button text, link URL)` pair
per configured format, then one per configured type; `rev` models Django's
`reverse` on a route name. -/
def get_export_buttons (cfg : AdminConfig) (rev : String → String) :
    List (String × String) :=
  let app := cfg.meta.app_label
  let mod := cfg.meta.module_name
  (cfg.export_formats.map fun fd =>
    ("Export " ++ fd.1,
      rev ("admin:" ++ export_url_name app mod (lowerStr fd.1))))
  ++ (cfg.export_types.map fun t =>
    ("Export " ++ upperStr t,
      rev ("admin:" ++ export_url_name app mod (lowerStr t))))

/-- The `kwargs['extra_context']` attached to a generated export URL. -/
inductive UrlKwargs where
  | delimiter (d : String)
  | export_type (t : String)
deriving DecidableEq, Repr

/-- One entry of a Django URL pattern list: the regex, the route name, and
the kwargs (none for host-framework routes). -/
structure UrlPattern where
  regex : String
  name : String
  kwargs : Option UrlKwargs
deriving DecidableEq, Repr

/-- The list of new export URL patterns built inside
`ExportableAdmin.get_urls`: one per configured format, then one per
configured type. -/
def export_urls (cfg : AdminConfig) : List UrlPattern :=
  let app := cfg.meta.app_label
  let mod := cfg.meta.module_name
  (cfg.export_formats.map fun fd =>
    { regex := "^export/" ++ lowerStr fd.1 ++ "$",
      name := export_url_name app mod (lowerStr fd.1),
      kwargs := some (UrlKwargs.delimiter fd.2) })
  ++ (cfg.export_types.map fun t =>
    { regex := "^export/" ++ lowerStr t ++ "$",
      name := export_url_name app mod (lowerStr t),
      kwargs := some (UrlKwargs.export_type (lowerStr t)) })

/-- `ExportableAdmin.get_urls`: `return my_urls + urls`, the new export
patterns followed by the host's existing patterns. -/
def get_urls (cfg : AdminConfig) (urls : List UrlPattern) : List UrlPattern :=
  export_urls cfg ++ urls

/-- The keys of the `extra_context` dict that `changelist_view` inspects. -/
structure ExtraContext where
  export_delimiter : Option String := none
  export_type : Option String := none
deriving DecidableEq, Repr

/-- The response produced by `changelist_view`: either the retargeted CSV
template response with its two headers, a dispatch to the named
`export_type_*` method, or the standard changelist with export buttons. -/
inductive CLResponse where
  | csvExport (template_name content_type content_disposition : String)
  | typeExport (method_name : String)
  | standard (export_buttons : List (String × String))
deriving DecidableEq, Repr

/-- The observable outcome of `changelist_view`: the request state passed to
the host (`super`) changelist view, and the response. -/
structure CLOutcome where
  super_request : Request
  response : CLResponse
deriving DecidableEq, Repr

/-- `ExportableAdmin.changelist_view`: the `export_delimiter` branch first,
then the `export_type` branch, else the standard view with buttons.  Both
export branches set `is_export_request` on the request before delegating. -/
def changelist_view (cfg : AdminConfig) (rev : String → String)
    (request : Request) (extra_context : Option ExtraContext) : CLOutcome :=
  match extra_context with
  | some ec =>
    match ec.export_delimiter with
    | some _ =>
      { super_request := { request with is_export_request := true },
        response := CLResponse.csvExport
          "django_exportable_admin/change_list_csv.html"
          "text/csv"
          ("attachment; filename=" ++ slugify cfg.meta.verbose_name ++ ".csv") }
    | none =>
      match ec.export_type with
      | some t =>
        { super_request := { request with is_export_request := true },
          response := CLResponse.typeExport ("export_type_" ++ t) }
      | none =>
        { super_request := request,
          response := CLResponse.standard (get_export_buttons cfg rev) }
  | none =>
    { super_request := request,
      response := CLResponse.standard (get_export_buttons cfg rev) }

/-- A queryset record: its attributes as stringified values (the code applies
`unicode(...)` to whatever `getattr` returns). -/
structure Rec where
  attrs : List (String × String)
deriving DecidableEq, Repr

/-- `unicode(getattr(row, fieldname, dflt))`: attribute lookup with a
default. -/
def Rec.getattr (r : Rec) (field dflt : String) : String :=
  (r.attrs.lookup field).getD dflt

/-- The inner `get_verbose_name` of `export_type_xls`: the first matching
meta field's verbose name (or its name when the verbose name is falsy),
uppercased; for an unknown field name, the field name itself uppercased. -/
def get_verbose_name (meta : ModelMeta) (fieldname : String) : String :=
  match (meta.fields.filter fun f => f.name == fieldname).head? with
  | some f => upperStr (if f.verbose_name == "" then f.name else f.verbose_name)
  | none => upperStr fieldname

/-- The binary response built by `export_type_xls`: its mimetype and
Content-Disposition header, and the sheet contents written through `xlwt`
(row 0 is the header, rows 1.. are the data rows). -/
structure XlsResponse where
  mimetype : String
  content_disposition : String
  sheet_name : String
  header_row : List String
  data_rows : List (List String)
deriving DecidableEq, Repr

/-- `ExportableAdmin.export_type_xls`: reads
`response.context_data['cl'].query_set` (a missing context propagates as an
error, modelled by `none`), then writes a header from
`list_display[1:]` labels and one row per record from the same fields,
defaulting a missing attribute to the empty string. -/
def export_type_xls (cfg : AdminConfig) (context_queryset : Option (List Rec)) :
    Option XlsResponse :=
  match context_queryset with
  | none => none
  | some queryset =>
    let display := cfg.list_display.drop 1
    some
      { mimetype := "application/ms-excel",
        content_disposition :=
          "attachment;filename=" ++ lowerStr cfg.meta.verbose_name_plural ++ ".xls",
        sheet_name := cfg.meta.verbose_name_plural,
        header_row := display.map (get_verbose_name cfg.meta),
        data_rows := queryset.map fun r => display.map fun fn => r.getattr fn "" }

/-! Concrete fixtures used by witnesses and counterexamples. -/

/-- A model field with a verbose name. -/
def titleField : MetaField := { name := "title", verbose_name := "Book Title" }

/-- A model field whose verbose name is falsy. -/
def idField : MetaField := { name := "id", verbose_name := "" }

/-- A concrete `_meta` for a sample model. -/
def bookMeta : ModelMeta :=
  { app_label := "library", module_name := "book",
    verbose_name := "Great Book", verbose_name_plural := "Books",
    fields := [idField, titleField] }

/-- A concrete admin configuration with two formats and one type. -/
def bookAdmin : AdminConfig :=
  { meta := bookMeta,
    export_formats := [("CSV", ","), ("Pipe", "|")],
    export_types := ["xls"],
    list_display := ["id", "title"] }

/-- A concrete record of the sample model. -/
def book1 : Rec := { attrs := [("id", "1"), ("title", "Dune")] }

/-- An admin configuration whose second display field names no model field
and no record attribute. -/
def bogusAdmin : AdminConfig :=
  { meta := bookMeta, list_display := ["id", "missing_col"] }

/-- A host-framework URL pattern already present before `get_urls` runs. -/
def hostUrl : UrlPattern :=
  { regex := "^$", name := "library_book_changelist", kwargs := none }

/-! Theorems for the claims. -/

/-- C1: for every request carrying the export flag, `get_paginator` builds the
paginator with per-page size `export_queryset_limit` (default 10000), zero
orphans and `allow_empty_first_page = true`, ignoring its arguments; for every
request without the flag it passes its arguments through unchanged. -/
theorem c1_get_paginator_export_limit {Q : Type} (cfg : AdminConfig)
    (m : ModelMeta) (req : Request) (qs : Q) (per_page orphans : Nat)
    (aefp : Bool) :
    (req.is_export_request = true →
      get_paginator cfg req qs per_page orphans aefp
        = { queryset := qs, per_page := cfg.export_queryset_limit,
            orphans := 0, allow_empty_first_page := true })
    ∧ (req.is_export_request = false →
      get_paginator cfg req qs per_page orphans aefp
        = { queryset := qs, per_page := per_page, orphans := orphans,
            allow_empty_first_page := aefp })
    ∧ ({ meta := m } : AdminConfig).export_queryset_limit = 10000 := by
  refine ⟨fun h => ?_, fun h => ?_, rfl⟩ <;> simp [get_paginator, h]

/-- C1 witness: with the default limit, an export-flagged request gets the
10000-row paginator and an unflagged one keeps its arguments. -/
theorem c1_get_paginator_export_limit_witness :
    get_paginator bookAdmin { is_export_request := true } [book1] 25 3 false
      = { queryset := [book1], per_page := 10000, orphans := 0,
          allow_empty_first_page := true }
    ∧ get_paginator bookAdmin { is_export_request := false } [book1] 25 3 false
      = { queryset := [book1], per_page := 25, orphans := 3,
          allow_empty_first_page := false } :=
  ⟨(c1_get_paginator_export_limit bookAdmin bookMeta
      { is_export_request := true } [book1] 25 3 false).1 rfl,
   (c1_get_paginator_export_limit bookAdmin bookMeta
      { is_export_request := false } [book1] 25 3 false).2.1 rfl⟩

/-- C4: for every delimited export request (`export_delimiter` present in the
extra context), `changelist_view` returns the CSV-template response with
Content-Type `text/csv` and Content-Disposition
`attachment; filename=<slugified verbose name>.csv`. -/
theorem c4_csv_response_headers (cfg : AdminConfig) (rev : String → String)
    (req : Request) (ec : ExtraContext) (d : String)
    (h : ec.export_delimiter = some d) :
    (changelist_view cfg rev req (some ec)).response
      = CLResponse.csvExport
          "django_exportable_admin/change_list_csv.html"
          "text/csv"
          ("attachment; filename=" ++ slugify cfg.meta.verbose_name ++ ".csv") := by
  simp [changelist_view, h]

/-- C4 witness: a concrete delimited export for the sample model, whose
verbose name "Great Book" slugifies to "great-book". -/
theorem c4_csv_response_headers_witness :
    (changelist_view bookAdmin id {} (some { export_delimiter := some "," })).response
      = CLResponse.csvExport
          "django_exportable_admin/change_list_csv.html"
          "text/csv"
          "attachment; filename=great-book.csv" := by
  rw [c4_csv_response_headers bookAdmin id {} { export_delimiter := some "," } "," rfl]
  rfl

/-- C10: when the extra context carries both `export_delimiter` and
`export_type`, the delimiter branch wins: the response is the CSV response and
never a type-handler dispatch; and in both export branches the request passed
to the host changelist view carries `is_export_request`. -/
theorem c10_delimiter_precedence (cfg : AdminConfig) (rev : String → String)
    (req : Request) (ec : ExtraContext) (d t : String)
    (hd : ec.export_delimiter = some d) (_ht : ec.export_type = some t) :
    (∃ tmpl ct cd, (changelist_view cfg rev req (some ec)).response
        = CLResponse.csvExport tmpl ct cd)
    ∧ (∀ m, (changelist_view cfg rev req (some ec)).response
        ≠ CLResponse.typeExport m)
    ∧ (changelist_view cfg rev req (some ec)).super_request.is_export_request
        = true
    ∧ (∀ ec2 : ExtraContext, ec2.export_delimiter = none →
        ec2.export_type = some t →
        (changelist_view cfg rev req (some ec2)).super_request.is_export_request
          = true
        ∧ (changelist_view cfg rev req (some ec2)).response
          = CLResponse.typeExport ("export_type_" ++ t)) := by
  have hresp : (changelist_view cfg rev req (some ec)).response
      = CLResponse.csvExport
          "django_exportable_admin/change_list_csv.html"
          "text/csv"
          ("attachment; filename=" ++ slugify cfg.meta.verbose_name ++ ".csv") := by
    simp [changelist_view, hd]
  refine ⟨⟨_, _, _, hresp⟩, ?_, ?_, ?_⟩
  · intro m; rw [hresp]; simp
  · simp [changelist_view, hd]
  · intro ec2 hd2 ht2
    constructor <;> simp [changelist_view, hd2, ht2]

/-- C10 witness: a concrete context with both keys takes the CSV branch with
the flag set, and a type-only context takes the type branch with the flag
set. -/
theorem c10_delimiter_precedence_witness :
    (changelist_view bookAdmin id {}
        (some { export_delimiter := some ",", export_type := some "xls" })).super_request.is_export_request
      = true
    ∧ (changelist_view bookAdmin id {}
        (some { export_type := some "xls" })).response
      = CLResponse.typeExport "export_type_xls" :=
  ⟨(c10_delimiter_precedence bookAdmin id {}
      { export_delimiter := some ",", export_type := some "xls" }
      "," "xls" rfl rfl).2.2.1,
   ((c10_delimiter_precedence bookAdmin id {}
      { export_delimiter := some ",", export_type := some "xls" }
      "," "xls" rfl rfl).2.2.2 { export_type := some "xls" } rfl rfl).2⟩

/-- C2 counterexample: with display fields `["id", "title"]`, the xls header
has the single cell "BOOK TITLE" — the first display field is skipped — so the
header is not the labels of all of the admin's display fields. -/
theorem c2_counterexample_first_field_skipped :
    Option.map XlsResponse.header_row (export_type_xls bookAdmin (some [book1]))
      = some ["BOOK TITLE"]
    ∧ bookAdmin.list_display.map (get_verbose_name bookAdmin.meta)
      = ["ID", "BOOK TITLE"]
    ∧ (["BOOK TITLE"] : List String) ≠ ["ID", "BOOK TITLE"] := by decide

/-- C2 (amended): `export_type_xls` takes the queryset from the rendered
response's context, writes a header row whose cells are the labels of the
admin's display fields excluding the first, then one row per record, in
order, whose cells are the string values of those same fields on that record
(a missing attribute becoming the empty string), and returns a binary
attachment response. -/
theorem c2_xls_header_and_rows (cfg : AdminConfig) (qs : List Rec) :
    ∃ resp, export_type_xls cfg (some qs) = some resp
      ∧ resp.mimetype = "application/ms-excel"
      ∧ resp.header_row
          = (cfg.list_display.drop 1).map (get_verbose_name cfg.meta)
      ∧ resp.data_rows
          = qs.map (fun r => (cfg.list_display.drop 1).map fun fn => r.getattr fn "")
      ∧ resp.data_rows.length = qs.length := by
  refine ⟨_, rfl, rfl, rfl, rfl, ?_⟩
  simp [export_type_xls]

/-- C5 counterexample: for plural name "Books" the Content-Disposition has no
space after the semicolon and the plural is lowercased —
`attachment;filename=books.xls`, not `attachment; filename=Books.xls`. -/
theorem c5_counterexample_header_format :
    Option.map XlsResponse.content_disposition (export_type_xls bookAdmin (some []))
      = some "attachment;filename=books.xls"
    ∧ ("attachment;filename=books.xls" : String)
      ≠ "attachment; filename=Books.xls" := by decide

/-- C5 (amended): every spreadsheet export response has mimetype
`application/ms-excel` and Content-Disposition
`attachment;filename=<lowercased model plural>.xls` (no space after the
semicolon). -/
theorem c5_xls_response_headers (cfg : AdminConfig) (qs : List Rec) :
    Option.map XlsResponse.content_disposition (export_type_xls cfg (some qs))
      = some ("attachment;filename="
          ++ lowerStr cfg.meta.verbose_name_plural ++ ".xls")
    ∧ Option.map XlsResponse.mimetype (export_type_xls cfg (some qs))
      = some "application/ms-excel" :=
  ⟨rfl, rfl⟩

/-- C8 counterexample: with the unknown display field "missing_col" (no model
field, no record attribute), the xls export still succeeds — the header cell
falls back to the uppercased field name and the data cell to the empty
string — instead of letting a failure propagate. -/
theorem c8_counterexample_bad_field_defaulted :
    export_type_xls bogusAdmin (some [book1])
      = some { mimetype := "application/ms-excel",
               content_disposition := "attachment;filename=books.xls",
               sheet_name := "Books",
               header_row := ["MISSING_COL"],
               data_rows := [[""]] }
    ∧ bookMeta.fields.filter (fun f => f.name == "missing_col") = []
    ∧ book1.attrs.lookup "missing_col" = none := by decide

/-- C8 (amended): the xls export does default bad display field names rather
than propagate them — an unknown field name yields the uppercased name as
header label and the empty string as cell value — while a missing query
context does propagate as a host-framework-level error. -/
theorem c8_bad_field_defaults (cfg : AdminConfig) (r : Rec) (fn : String)
    (hfield : cfg.meta.fields.filter (fun f => f.name == fn) = [])
    (hattr : r.attrs.lookup fn = none) :
    get_verbose_name cfg.meta fn = upperStr fn
    ∧ r.getattr fn "" = ""
    ∧ export_type_xls cfg none = none := by
  refine ⟨?_, ?_, rfl⟩
  · simp [get_verbose_name, hfield]
  · simp [Rec.getattr, hattr]

/-- C8 witness: the defaulting theorem applied to the concrete unknown field
"missing_col". -/
theorem c8_bad_field_defaults_witness :
    get_verbose_name bogusAdmin.meta "missing_col" = "MISSING_COL"
    ∧ book1.getattr "missing_col" "" = "" :=
  ⟨((c8_bad_field_defaults bogusAdmin book1 "missing_col"
      (by decide) (by decide)).1).trans (by decide),
   (c8_bad_field_defaults bogusAdmin book1 "missing_col"
      (by decide) (by decide)).2.1⟩

/-- The lowercased names of all configured export formats, then all
configured export types, in configuration order. -/
def lowered_names (cfg : AdminConfig) : List String :=
  cfg.export_formats.map (fun fd => lowerStr fd.1) ++ cfg.export_types.map lowerStr

/-- Surrounding a string with a fixed prefix and suffix is injective. -/
theorem wrap_string_injective (p s : String) :
    Function.Injective (fun n : String => p ++ n ++ s) := by
  intro a b h
  have hd := congrArg String.data h
  simp only [String.data_append] at hd
  exact String.ext (List.append_cancel_left (List.append_cancel_right hd))

/-- C3 counterexample: with one existing host pattern and the sample
configuration, `get_urls` puts the three new export routes before the
existing pattern, not after it. -/
theorem c3_counterexample_routes_come_first :
    get_urls bookAdmin [hostUrl] = export_urls bookAdmin ++ [hostUrl]
    ∧ get_urls bookAdmin [hostUrl] ≠ [hostUrl] ++ export_urls bookAdmin :=
  ⟨rfl, by decide⟩

/-- C3 (amended): for every configuration, `get_urls` returns the newly
generated export routes — one per configured format and one per configured
type — prepended to the host's existing route table (built when the admin's
URL table is initialized). -/
theorem c3_get_urls_prepends (cfg : AdminConfig) (urls : List UrlPattern) :
    get_urls cfg urls = export_urls cfg ++ urls
    ∧ (export_urls cfg).length
      = cfg.export_formats.length + cfg.export_types.length :=
  ⟨rfl, by simp [export_urls]⟩

/-- C6 counterexample: for the configured export type "xls" the button text
is "Export XLS" — the type name uppercased — not "Export xls". -/
theorem c6_counterexample_type_button_uppercased :
    get_export_buttons bookAdmin (fun s => s)
      = [("Export CSV", "admin:library_book_export_csv"),
         ("Export Pipe", "admin:library_book_export_pipe"),
         ("Export XLS", "admin:library_book_export_xls")]
    ∧ ("Export XLS" : String) ≠ "Export xls" := by decide

/-- C6 (amended): `get_export_buttons` returns exactly one (button text,
link URL) pair per configured format and per configured type; a format
button's text is "Export " followed by the format name as configured, a type
button's text is "Export " followed by the uppercased type name, and each
URL is the resolution of the corresponding named route. -/
theorem c6_export_buttons_per_entry (cfg : AdminConfig)
    (rev : String → String) :
    get_export_buttons cfg rev
      = cfg.export_formats.map (fun fd =>
          ("Export " ++ fd.1,
            rev ("admin:" ++ export_url_name cfg.meta.app_label
              cfg.meta.module_name (lowerStr fd.1))))
        ++ cfg.export_types.map (fun t =>
          ("Export " ++ upperStr t,
            rev ("admin:" ++ export_url_name cfg.meta.app_label
              cfg.meta.module_name (lowerStr t))))
    ∧ (get_export_buttons cfg rev).length
      = cfg.export_formats.length + cfg.export_types.length :=
  ⟨rfl, by simp [get_export_buttons]⟩

/-- C7: when the lowercased configured names are pairwise distinct, the
generated export routes are exactly one per configured format and type, each
matching the path `export/<name lowercased>` (regex `^export/<name>$`), and
the routes are pairwise distinct. -/
theorem c7_route_patterns (cfg : AdminConfig)
    (hdist : (lowered_names cfg).Nodup) :
    (export_urls cfg).map UrlPattern.regex
      = (lowered_names cfg).map (fun n => "^export/" ++ n ++ "$")
    ∧ (export_urls cfg).length
      = cfg.export_formats.length + cfg.export_types.length
    ∧ (export_urls cfg).Nodup := by
  have hmap : (export_urls cfg).map UrlPattern.regex
      = (lowered_names cfg).map (fun n => "^export/" ++ n ++ "$") := by
    simp only [export_urls, lowered_names, List.map_append, List.map_map]
    rfl
  refine ⟨hmap, by simp [export_urls], ?_⟩
  have hreg : ((export_urls cfg).map UrlPattern.regex).Nodup := by
    rw [hmap]
    exact hdist.map (wrap_string_injective "^export/" "$")
  exact List.Nodup.of_map UrlPattern.regex hreg

/-- C7 witness: the sample configuration (CSV, Pipe, xls) has distinct
lowercased names and yields three pairwise distinct routes. -/
theorem c7_route_patterns_witness :
    (lowered_names bookAdmin).Nodup
    ∧ ((export_urls bookAdmin).map UrlPattern.regex
        = (lowered_names bookAdmin).map (fun n => "^export/" ++ n ++ "$")
      ∧ (export_urls bookAdmin).length
        = bookAdmin.export_formats.length + bookAdmin.export_types.length
      ∧ (export_urls bookAdmin).Nodup) :=
  ⟨by decide, c7_route_patterns bookAdmin (by decide)⟩

/-- C9: the link URLs of the export buttons are, in order, exactly the
resolutions (in the `admin:` namespace) of the route names that `get_urls`
registers: every button a configuration generates resolves a route that the
same configuration registers. -/
theorem c9_buttons_match_registered_routes (cfg : AdminConfig)
    (rev : String → String) :
    (get_export_buttons cfg rev).map Prod.snd
      = (export_urls cfg).map (fun u => rev ("admin:" ++ u.name)) := by
  simp only [get_export_buttons, export_urls, List.map_append, List.map_map]
  rfl

end DjangoExportableAdmin
